import Mathlib

/-!
Verification development for the codegen-x repository core:
the specification validator (`src/codegen/spec_validator.py`), the step-graph
validator (`src/codegen/step_graph.py`), the generation-with-repair driver
(`src/codegen/functional_code_generator.py`), and the validate/refine loop
(`src/tools/validate_tool.py`, `src/tools/refine_tool.py`,
`src/agent/code_agent.py`).

External collaborators of the code (Python's `ast.parse`, the sandboxed code
executor, Python's `eval`/`repr`/`str` builtins, and the text-generation
oracle) are modelled as explicit function arguments; everything the repository
itself computes is embedded as executable Lean definitions mirroring the
Python source.
-/

namespace CodegenX

/-- Character-list prefix test, used to model Python's substring operator. -/
def charsPre : List Char → List Char → Bool
  | [], _ => true
  | _ :: _, [] => false
  | a :: as, b :: bs => a == b && charsPre as bs

/-- Character-list contiguous-substring test. -/
def charsSub (tok : List Char) : List Char → Bool
  | [] => charsPre tok []
  | c :: cs => charsPre tok (c :: cs) || charsSub tok cs

/-- Python `tok in s` substring containment on strings. -/
def strContains (s tok : String) : Bool := charsSub tok.data s.data

/-- Severity-tagged validation finding; mirrors `ValidationIssue` in
`src/codegen/spec_validator.py`. -/
structure ValidationIssue where
  code : String
  location : String
  message : String
  severity : String
  deriving DecidableEq, Repr

/-- Mirrors `ValidationIssue.format`. -/
def ValidationIssue.format (i : ValidationIssue) : String :=
  i.severity ++ ":" ++ i.code ++ "::" ++ i.location ++ "::" ++ i.message

/-- Mirrors `SpecValidator._err`. -/
def mk_err (code loc msg : String) : ValidationIssue :=
  { code := code, location := loc, message := msg, severity := "ERROR" }

/-- Mirrors `SpecValidator._warn`. -/
def mk_warn (code loc msg : String) : ValidationIssue :=
  { code := code, location := loc, message := msg, severity := "WARNING" }

/-- Python `ast` expression context (`ast.Load` / `ast.Store`). -/
inductive PyCtx where
  | load
  | store
  deriving DecidableEq, Repr

/-- Fragment of Python's `ast` expression nodes reachable from
`ast.parse(expr, mode='eval')`. Of the node kinds `_validate_expr` rejects
outright (`Import`, `ImportFrom`, `Lambda`, `With`, `Try`, `FunctionDef`,
`ClassDef`), only `Lambda` is an expression node and hence the only one that
can occur in an eval-mode parse tree; the others are statements. -/
inductive PyExpr where
  | constant
  | name (id : String) (ctx : PyCtx)
  | attrN (value : PyExpr) (a : String)
  | call (func : PyExpr) (args : List PyExpr)
  | lam (body : PyExpr)
  | boolOp (values : List PyExpr)
  | binOp (left right : PyExpr)
  | unaryOp (operand : PyExpr)
  | compare (left : PyExpr) (comparators : List PyExpr)
  | subscript (value index : PyExpr)
  | listD (elts : List PyExpr)
  deriving Repr

mutual

/-- All nodes of an expression tree. Python's `ast.walk` visits every node in
breadth-first order; the issue collection below does not depend on visit
order, so a preorder listing stands in for it. -/
def walkNodes : PyExpr → List PyExpr
  | .constant => [.constant]
  | .name i c => [.name i c]
  | .attrN v a => .attrN v a :: walkNodes v
  | .call f args => .call f args :: (walkNodes f ++ walkList args)
  | .lam b => .lam b :: walkNodes b
  | .boolOp vs => .boolOp vs :: walkList vs
  | .binOp l r => .binOp l r :: (walkNodes l ++ walkNodes r)
  | .unaryOp e => .unaryOp e :: walkNodes e
  | .compare l cs => .compare l cs :: (walkNodes l ++ walkList cs)
  | .subscript v i => .subscript v i :: (walkNodes v ++ walkNodes i)
  | .listD es => .listD es :: walkList es

/-- Walk of a list of sibling nodes. -/
def walkList : List PyExpr → List PyExpr
  | [] => []
  | e :: es => walkNodes e ++ walkList es

end

/-- Mirrors `SpecValidator.SAFE_CALL_WHITELIST`. -/
def SAFE_CALL_WHITELIST : List String := ["len", "abs", "min", "max", "sum", "all", "any"]

/-- Mirrors `SpecValidator._extract_call_name`: the callee's final name of a
call node (`ast.Name` gives its id, `ast.Attribute` gives its attribute). -/
def extract_call_name : PyExpr → String
  | .call (.name i _) _ => i
  | .call (.attrN _ a) _ => a
  | _ => "<unknown>"

/-- Loop body of the `ast.walk` pass in `SpecValidator._validate_expr`
(lines 168-177): the (errors, warnings) emitted at a single node. -/
def nodeIssues (location : String) (params : List String) : PyExpr → List ValidationIssue × List ValidationIssue
  | .call f args =>
      let fname := extract_call_name (.call f args)
      if SAFE_CALL_WHITELIST.contains fname then ([], [])
      else ([mk_err "PRED_UNSAFE_NODE" location ("Call not allowed: " ++ fname)], [])
  | .lam _ => ([mk_err "PRED_UNSAFE_NODE" location "Forbidden syntax: Lambda"], [])
  | .name i ctx =>
      if !(params.contains i) && !(["result", "original_result", "new_result"].contains i)
          && ctx != PyCtx.store
      then ([], [mk_warn "PRED_NAME_UNKNOWN" location ("Name " ++ i ++ " not in params")])
      else ([], [])
  | _ => ([], [])

/-- The fixed token list of the "security quick scan" in
`SpecValidator._validate_expr` (line 159). -/
def FORBIDDEN_TOKENS : List String := [";", "__import__", "import ", "exec(", "eval("]

/-- Whether the raw expression text contains any forbidden token. -/
def has_forbidden_token (expr : String) : Bool :=
  FORBIDDEN_TOKENS.any (fun tok => strContains expr tok)

/-- Mirrors `SpecValidator._validate_expr`. Python's `ast.parse(expr,
mode='eval')` is external to the repository and is modelled by the `parsed`
argument (`Except.error e` models a parse exception with message `e`, giving
the `f"Parse error: {e}"` issue). Returns the (errors, warnings) the call
appends to its accumulator lists. -/
def validate_expr (expr : String) (parsed : Except String PyExpr) (params : List String)
    (location : String) : List ValidationIssue × List ValidationIssue :=
  if has_forbidden_token expr then
    ([mk_err "PRED_UNSAFE_NODE" location "Contains forbidden token"], [])
  else
    match parsed with
    | .error e => ([mk_err "PRED_EXPR_INVALID" location ("Parse error: " ++ e)], [])
    | .ok node =>
        let walked := (walkNodes node).map (nodeIssues location params)
        let errs := walked.flatMap Prod.fst
        let warns := walked.flatMap Prod.snd
        let triv :=
          match node with
          | .constant => [mk_warn "PRED_TRIVIAL" location "Predicate is a constant"]
          | _ => []
        (errs, warns ++ triv)

/-- Universe of Python values carried in example `inputs`/`output` fields
(typed `Any` in `src/codegen/spec.py`); `obj` stands for a value
`json.dumps` cannot serialize. -/
inductive PyVal where
  | noneV
  | bool (b : Bool)
  | int (n : Int)
  | str (s : String)
  | list (elems : List PyVal)
  | dict (entries : List (String × PyVal))
  | obj (className : String)
  deriving Repr

/-- Python `is None` / `is not None` test on a value. -/
def isNoneV : PyVal → Bool
  | .noneV => true
  | _ => false

mutual

/-- Python `==` on same-shaped values. -/
def pyValBeq : PyVal → PyVal → Bool
  | .noneV, .noneV => true
  | .bool a, .bool b => a == b
  | .int a, .int b => a == b
  | .str a, .str b => a == b
  | .list xs, .list ys => pyListBeq xs ys
  | .dict xs, .dict ys => pyDictBeq xs ys
  | .obj a, .obj b => a == b
  | _, _ => false

/-- Elementwise Python `==` on lists. -/
def pyListBeq : List PyVal → List PyVal → Bool
  | [], [] => true
  | x :: xs, y :: ys => pyValBeq x y && pyListBeq xs ys
  | _, _ => false

/-- Entrywise Python `==` on string-keyed dicts (insertion order). -/
def pyDictBeq : List (String × PyVal) → List (String × PyVal) → Bool
  | [], [] => true
  | (k1, v1) :: xs, (k2, v2) :: ys => k1 == k2 && pyValBeq v1 v2 && pyDictBeq xs ys
  | _, _ => false

end

instance : BEq PyVal := ⟨pyValBeq⟩

mutual

/-- Whether `json.dumps` succeeds on a value. -/
def jsonSerializable : PyVal → Bool
  | .noneV => true
  | .bool _ => true
  | .int _ => true
  | .str _ => true
  | .list xs => jsonSerializableList xs
  | .dict xs => jsonSerializableDict xs
  | .obj _ => false

/-- Whether `json.dumps` succeeds on every element of a list. -/
def jsonSerializableList : List PyVal → Bool
  | [] => true
  | x :: xs => jsonSerializable x && jsonSerializableList xs

/-- Whether `json.dumps` succeeds on a string-keyed dict. -/
def jsonSerializableDict : List (String × PyVal) → Bool
  | [] => true
  | (_, v) :: xs => jsonSerializable v && jsonSerializableDict xs

end

/-- Mirrors `TypeDescriptor` of `src/codegen/spec.py` (fields the validator
reads; descriptive fields it never touches are omitted). -/
structure TypeDescriptor where
  name : String
  type : String
  nullable : Bool := false

/-- Mirrors `ExceptionSpec` of `src/codegen/spec.py`. -/
structure ExceptionSpec where
  type : String
  predicate : String
  message : String := ""

/-- Mirrors `Predicate` of `src/codegen/spec.py`. -/
structure Predicate where
  id : String
  expr : String
  message : String := ""

/-- Mirrors `Example` of `src/codegen/spec.py`. `output` defaults to Python
`None`, embedded as `PyVal.noneV` (so `output is not None` is
`!(isNoneV output)`); `raises : Optional[str]` keeps the `Option`. -/
structure Example where
  id : String
  inputs : List (String × PyVal)
  output : PyVal := .noneV
  raises : Option String := none
  tags : List String := []
  notes : String := ""

/-- Python truthiness of an `Optional[str]`: `None` and `""` are falsy. -/
def optStrTruthy : Option String → Bool
  | none => false
  | some s => !(s == "")

/-- Mirrors `MetamorphicRelation` of `src/codegen/spec.py`. -/
structure MetamorphicRelation where
  id : String
  transform_inputs : String
  relation : String
  oracle_expr : String
  notes : String := ""

/-- Mirrors `ComplexityGuarantee` of `src/codegen/spec.py`. -/
structure ComplexityGuarantee where
  big_o : String
  witness_rules : List String := []

/-- Mirrors `TypesModel` of `src/codegen/spec.py` (the validator reads
`parameters` and `exceptions`; `returns` is never read by it). -/
structure TypesModel where
  parameters : List TypeDescriptor := []
  exceptions : List ExceptionSpec := []

/-- Mirrors `ExamplesBundle` of `src/codegen/spec.py`. -/
structure ExamplesBundle where
  positive : List Example := []
  negative : List Example := []

/-- Mirrors `LegacySignature` (the validator reads only `return_type`). -/
structure LegacySignature where
  return_type : String

/-- Mirrors `LegacyMainFunction` (the validator reads `name` and
`signature.return_type`). -/
structure LegacyMainFunction where
  name : String
  signature : LegacySignature

/-- Mirrors the `Spec` root dataclass of `src/codegen/spec.py`, restricted to
the fields `SpecValidator.validate` reads. -/
structure Spec where
  main_function : Option LegacyMainFunction
  types : TypesModel := {}
  pre : List Predicate := []
  post : List Predicate := []
  invariants : List Predicate := []
  examples : ExamplesBundle := {}
  metamorphic_relations : List MetamorphicRelation := []
  forbidden_apis : List String := []
  complexity_guarantee : Option ComplexityGuarantee := none
  spec_version : Int := 2

/-- Concatenate a list of (errors, warnings) pairs componentwise, preserving
traversal order within each component list. -/
def pairConcat (l : List (List ValidationIssue × List ValidationIssue)) :
    List ValidationIssue × List ValidationIssue :=
  (l.flatMap Prod.fst, l.flatMap Prod.snd)

/-- Mirrors the loop of `SpecValidator._check_id_uniqueness` with its `seen`
set threaded explicitly. -/
def check_id_uniqueness_go (context : String) : List Predicate → List String → List ValidationIssue
  | [], _ => []
  | p :: ps, seen =>
      if p.id == "" then
        mk_err "ID_CONFLICT" context "Predicate id empty" :: check_id_uniqueness_go context ps seen
      else if seen.contains p.id then
        mk_err "ID_CONFLICT" (context ++ "." ++ p.id) "Duplicate predicate id"
          :: check_id_uniqueness_go context ps seen
      else check_id_uniqueness_go context ps (p.id :: seen)

/-- Mirrors `SpecValidator._check_id_uniqueness`. -/
def check_id_uniqueness (preds : List Predicate) (context : String) : List ValidationIssue :=
  check_id_uniqueness_go context preds []

/-- Mirrors the inner loop of `SpecValidator._check_example_ids`; returns the
issues plus the `seen` set, which is shared across the two groups. -/
def check_example_ids_go (group : String) : List Example → List String → List ValidationIssue × List String
  | [], seen => ([], seen)
  | ex :: exs, seen =>
      if ex.id == "" then
        let r := check_example_ids_go group exs seen
        (mk_err "ID_CONFLICT" ("examples." ++ group) "Example id empty" :: r.1, r.2)
      else if seen.contains ex.id then
        let r := check_example_ids_go group exs seen
        (mk_err "ID_CONFLICT" ("examples." ++ group ++ "." ++ ex.id) "Duplicate example id" :: r.1, r.2)
      else check_example_ids_go group exs (ex.id :: seen)

/-- Mirrors `SpecValidator._check_example_ids`. -/
def check_example_ids (spec : Spec) : List ValidationIssue :=
  let pos := check_example_ids_go "positive" spec.examples.positive []
  let neg := check_example_ids_go "negative" spec.examples.negative pos.2
  pos.1 ++ neg.1

/-- Mirrors the loop of `SpecValidator._check_meta_ids`. -/
def check_meta_ids_go : List MetamorphicRelation → List String → List ValidationIssue
  | [], _ => []
  | m :: ms, seen =>
      if m.id == "" then
        mk_err "ID_CONFLICT" "metamorphic_relations" "Relation id empty" :: check_meta_ids_go ms seen
      else if seen.contains m.id then
        mk_err "ID_CONFLICT" ("metamorphic_relations." ++ m.id) "Duplicate relation id"
          :: check_meta_ids_go ms seen
      else check_meta_ids_go ms (m.id :: seen)

/-- Mirrors `SpecValidator._check_meta_ids`. -/
def check_meta_ids (ms : List MetamorphicRelation) : List ValidationIssue :=
  check_meta_ids_go ms []

/-- Mirrors `SpecValidator._validate_predicate_expr`. -/
def validate_predicate_expr (parse : String → Except String PyExpr) (p : Predicate)
    (params : List String) (group : String) : List ValidationIssue × List ValidationIssue :=
  if p.expr == "" then
    ([mk_err "PRED_EXPR_INVALID" (group ++ "." ++ p.id) "Empty expression"], [])
  else
    validate_expr p.expr (parse p.expr) params (group ++ "." ++ p.id ++ ".expr")

/-- One predicate group of the loop at `spec_validator.py` lines 58-60. -/
def validate_pred_group (parse : String → Except String PyExpr) (params : List String)
    (group : String) (preds : List Predicate) : List ValidationIssue × List ValidationIssue :=
  pairConcat (preds.map (fun p => validate_predicate_expr parse p params group))

/-- Mirrors the `types.exceptions` loop at `spec_validator.py` lines 63-67. -/
def validate_exceptions (parse : String → Except String PyExpr) (params : List String)
    (excs : List ExceptionSpec) : List ValidationIssue × List ValidationIssue :=
  pairConcat ((excs.enum).map fun ie =>
    let loc := "types.exceptions[" ++ toString ie.1 ++ "]"
    let pe :=
      if !(ie.2.predicate == "") then
        validate_expr ie.2.predicate (parse ie.2.predicate) params (loc ++ ".predicate")
      else ([], [])
    let te :=
      if ie.2.type == "" then [mk_err "STRUCTURE_ERROR" (loc ++ ".type") "Exception type empty"]
      else []
    (pe.1 ++ te, pe.2))

/-- Insertion into a lexicographically sorted list of strings. -/
def insertSorted (s : String) : List String → List String
  | [] => [s]
  | t :: ts => if s ≤ t then s :: t :: ts else t :: insertSorted s ts

/-- Python `sorted` on a list of strings. -/
def sortStrings : List String → List String
  | [] => []
  | s :: ss => insertSorted s (sortStrings ss)

/-- Mirrors the per-example body of `SpecValidator._validate_examples`. -/
def validate_example (params : List String) (group : String) (ex : Example) :
    List ValidationIssue × List ValidationIssue :=
  let loc := "examples." ++ group ++ "." ++ (if ex.id == "" then "<?>" else ex.id)
  let keys := ex.inputs.map Prod.fst
  let missing := (params.filter (fun p => !(keys.contains p))).dedup
  let w1 :=
    if group == "positive" && !missing.isEmpty then
      [mk_warn "EXAMPLE_INPUT_MISSING" loc
        ("Missing params: " ++ String.intercalate "," (sortStrings missing))]
    else []
  let e1 :=
    if group == "negative" then
      (if !(optStrTruthy ex.raises) then
        [mk_err "EXAMPLE_INVALID" loc "Negative example must have raises"] else []) ++
      (if !(isNoneV ex.output) then
        [mk_err "EXAMPLE_INVALID" loc "Negative example should not define output"] else [])
    else
      (if optStrTruthy ex.raises then
        [mk_err "EXAMPLE_INVALID" loc "Positive example must not set raises"] else [])
  let e2 :=
    if !(jsonSerializableDict ex.inputs) then
      [mk_err "EXAMPLE_INVALID" loc "inputs not JSON serializable"]
    else []
  (e1 ++ e2, w1)

/-- Mirrors `SpecValidator._validate_examples` (positive group first, then
negative, in declaration order). -/
def validate_examples_all (params : List String) (spec : Spec) :
    List ValidationIssue × List ValidationIssue :=
  pairConcat (spec.examples.positive.map (validate_example params "positive")
    ++ spec.examples.negative.map (validate_example params "negative"))

/-- Mirrors `SpecValidator.META_RELATIONS_ALLOWED`. -/
def META_RELATIONS_ALLOWED : List String :=
  ["equal", "subset", "permutation", "length_non_decreasing", "custom"]

/-- Mirrors `SpecValidator._validate_metamorphic`. -/
def validate_metamorphic (parse : String → Except String PyExpr) (params : List String)
    (idx : Nat) (m : MetamorphicRelation) : List ValidationIssue × List ValidationIssue :=
  let loc := "metamorphic_relations[" ++ toString idx ++ "]." ++ (if m.id == "" then "?" else m.id)
  let e1 :=
    if !(META_RELATIONS_ALLOWED.contains m.relation) then
      [mk_err "META_RELATION_INVALID" loc ("Unknown relation " ++ m.relation)]
    else []
  let e2 :=
    if m.transform_inputs == "" then
      [mk_err "META_RELATION_INVALID" loc "transform_inputs empty"]
    else []
  let e3 :=
    if m.relation == "custom" && m.oracle_expr == "" then
      [mk_err "META_RELATION_INVALID" loc "custom relation requires oracle_expr"]
    else []
  let oe :=
    if !(m.oracle_expr == "") then
      validate_expr m.oracle_expr (parse m.oracle_expr)
        (params ++ ["original_result", "new_result"]) (loc ++ ".oracle_expr")
    else ([], [])
  (e1 ++ e2 ++ e3 ++ oe.1, oe.2)

/-- Mirrors `SpecValidator.FORBIDDEN_API_INTERNAL`. -/
def FORBIDDEN_API_INTERNAL : List String := ["__import__", "eval", "exec"]

/-- ASCII `[A-Za-z_]`. -/
def isIdentStart (c : Char) : Bool := c.isAlpha || c == '_'

/-- ASCII `[A-Za-z0-9_]`. -/
def isIdentChar (c : Char) : Bool := c.isAlphanum || c == '_'

/-- One `[A-Za-z_][A-Za-z0-9_]*` segment. -/
def identOk (s : String) : Bool :=
  match s.data with
  | [] => false
  | c :: cs => isIdentStart c && cs.all isIdentChar

/-- The dotted-identifier regex `^[A-Za-z_][A-Za-z0-9_]*(\.[A-Za-z_][A-Za-z0-9_]*)*$`
of `spec_validator.py` line 78: every dot-separated segment is an identifier. -/
def dotted_api_ok (s : String) : Bool :=
  (s.splitOn ".").all identOk

/-- Mirrors the `forbidden_apis` loop at `spec_validator.py` lines 77-81. -/
def validate_forbidden_apis (apis : List String) : List ValidationIssue :=
  (apis.enum).flatMap fun ia =>
    let loc := "forbidden_apis[" ++ toString ia.1 ++ "]"
    (if !(dotted_api_ok ia.2) then
      [mk_err "FORBIDDEN_API_FORMAT" loc ("Invalid api token " ++ ia.2)] else []) ++
    (if FORBIDDEN_API_INTERNAL.contains ia.2 then
      [mk_err "FORBIDDEN_API_FORMAT" loc ("Internal unsafe api " ++ ia.2 ++ " not allowed")] else [])

/-- Mirrors `SpecValidator.COMPLEXITY_RULES_ALLOWED`. -/
def COMPLEXITY_RULES_ALLOWED : List String :=
  ["no_sort", "no_quadratic_nested_loops", "no_hash_map", "no_recursion"]

/-- Tail of the `^O\([^()]+\)$` regex after the opening `O(`: a non-empty
paren-free body followed by the final `)`. -/
def bigOInner : List Char → Bool
  | [] => false
  | [c] => c == ')'
  | c :: cs => !(c == '(') && !(c == ')') && bigOInner cs

/-- First body character of the regex tail (guarantees the body is non-empty). -/
def bigOTail : List Char → Bool
  | [] => false
  | [_] => false
  | c :: cs => !(c == '(') && !(c == ')') && bigOInner cs

/-- `re.match(r"^O\([^()]+\)$", s.strip())` of `spec_validator.py` line 85. -/
def big_o_ok (s : String) : Bool :=
  match s.trim.data with
  | 'O' :: '(' :: rest => bigOTail rest
  | _ => false

/-- Mirrors the `complexity_guarantee` block at `spec_validator.py` lines 84-89. -/
def validate_complexity : Option ComplexityGuarantee →
    List ValidationIssue × List ValidationIssue
  | none => ([], [])
  | some cg =>
      ((if !(big_o_ok cg.big_o) then
          [mk_err "COMPLEXITY_INVALID" "complexity_guarantee.big_o" "big_o must look like O(n)"]
        else []),
       cg.witness_rules.flatMap fun r =>
         if !(COMPLEXITY_RULES_ALLOWED.contains r) then
           [mk_warn "COMPLEXITY_INVALID" "complexity_guarantee.witness_rules" ("Unknown rule " ++ r)]
         else [])

/-- Mirrors the coverage checks at `spec_validator.py` lines 92-99. -/
def coverage_issues (spec : Spec) : List ValidationIssue × List ValidationIssue :=
  ((if spec.pre.isEmpty then
      [mk_err "COVERAGE_INSUFFICIENT" "pre" "At least one pre predicate required"] else []) ++
   (if spec.post.isEmpty then
      [mk_err "COVERAGE_INSUFFICIENT" "post" "At least one post predicate required"] else []),
   (if spec.examples.positive.isEmpty then
      [mk_warn "COVERAGE_INSUFFICIENT" "examples.positive" "No positive examples provided"] else []) ++
   (if spec.examples.negative.isEmpty then
      [mk_warn "COVERAGE_INSUFFICIENT" "examples.negative" "No negative examples provided"] else []))

/-- All checks of `SpecValidator.validate` (lines 35-99), in source order,
with the `errors` and `warnings` accumulators made explicit. Every check is
always evaluated; nothing short-circuits. -/
def spec_collect (parse : String → Except String PyExpr) (spec : Spec) :
    List ValidationIssue × List ValidationIssue :=
  let param_names := spec.types.parameters.map TypeDescriptor.name
  let e_version :=
    if !(spec.spec_version == 2) then
      [mk_err "STRUCTURE_ERROR" "spec_version" "spec_version must be 2"]
    else []
  let e_main :=
    match spec.main_function with
    | none => [mk_err "STRUCTURE_ERROR" "main_function.name" "Main function name missing"]
    | some mf =>
        if mf.name == "" then
          [mk_err "STRUCTURE_ERROR" "main_function.name" "Main function name missing"]
        else []
  let e_ret :=
    match spec.main_function with
    | none => []
    | some mf =>
        if mf.signature.return_type == "" then
          [mk_err "STRUCTURE_ERROR" "main_function.signature.return_type" "Return type missing"]
        else []
  let e_ids := check_id_uniqueness (spec.pre ++ spec.post ++ spec.invariants) "predicates"
  let e_exids := check_example_ids spec
  let e_mids := check_meta_ids spec.metamorphic_relations
  let preds := validate_pred_group parse param_names "pre" spec.pre
  let posts := validate_pred_group parse param_names "post" spec.post
  let invs := validate_pred_group parse param_names "invariants" spec.invariants
  let excs := validate_exceptions parse param_names spec.types.exceptions
  let exs := validate_examples_all param_names spec
  let metas := pairConcat ((spec.metamorphic_relations.enum).map fun im =>
    validate_metamorphic parse param_names im.1 im.2)
  let apis := validate_forbidden_apis spec.forbidden_apis
  let cplx := validate_complexity spec.complexity_guarantee
  let cov := coverage_issues spec
  (e_version ++ e_main ++ e_ret ++ e_ids ++ e_exids ++ e_mids
     ++ preds.1 ++ posts.1 ++ invs.1 ++ excs.1 ++ exs.1 ++ metas.1 ++ apis ++ cplx.1 ++ cov.1,
   preds.2 ++ posts.2 ++ invs.2 ++ excs.2 ++ exs.2 ++ metas.2 ++ cplx.2 ++ cov.2)

/-- The error component of `spec_collect`. -/
def spec_errors (parse : String → Except String PyExpr) (spec : Spec) : List ValidationIssue :=
  (spec_collect parse spec).1

/-- The warning component of `spec_collect`. -/
def spec_warnings (parse : String → Except String PyExpr) (spec : Spec) : List ValidationIssue :=
  (spec_collect parse spec).2

/-- Mirrors `SpecValidator.validate` (lines 101-104): raising
`SpecValidationError` with the newline-joined formatted errors is modelled as
`Except.error` of that message; the non-raising path returns the (empty)
`errors` list and the `warnings` list. -/
def SpecValidator_validate (parse : String → Except String PyExpr) (spec : Spec) :
    Except String (List ValidationIssue × List ValidationIssue) :=
  let ew := spec_collect parse spec
  if ew.1.isEmpty then Except.ok (ew.1, ew.2)
  else Except.error (String.intercalate "\n" (ew.1.map ValidationIssue.format))

/-- Mirrors `Step` of `src/codegen/step_graph.py`. -/
structure Step where
  id : String
  intent : String
  pre_refs : List String := []
  post_refs : List String := []
  invariant_refs : List String := []
  evidence_hooks : List String := []
  parents : List String := []
  children : List String := []

/-- Mirrors `StepGraph` of `src/codegen/step_graph.py`. -/
structure StepGraph where
  steps : List Step
  edges : List (String × String) := []
  order : List String := []
  version : Int := 1

/-- The step-ID set `{s.id for s in graph.steps}` (line 97), as the listing
whose membership is the set. -/
def stepIds (graph : StepGraph) : List String :=
  graph.steps.map Step.id

/-- Issue strings the per-step body of `StepGraphValidator.validate`
(lines 79-95) appends for one step, given the `id_set` seen so far. -/
def stepIssueList (seen : List String) (pre_ids post_ids invariant_ids : List String)
    (s : Step) : List String :=
  (if s.id == "" then ["Step id empty"] else []) ++
  (if seen.contains s.id then ["Duplicate step id " ++ s.id] else []) ++
  (if s.intent == "" then ["Step " ++ s.id ++ " intent empty"] else []) ++
  (s.pre_refs.flatMap fun r =>
    if !(pre_ids.contains r) then ["Step " ++ s.id ++ " unknown pre_ref " ++ r] else []) ++
  (s.post_refs.flatMap fun r =>
    if !(post_ids.contains r) then ["Step " ++ s.id ++ " unknown post_ref " ++ r] else []) ++
  (s.invariant_refs.flatMap fun r =>
    if !(invariant_ids.contains r) then ["Step " ++ s.id ++ " unknown invariant_ref " ++ r] else [])

/-- The step loop of `StepGraphValidator.validate`, threading the growing
`id_set` (the Python loop adds each `s.id` unconditionally after checking). -/
def stepIssuesGo (pre_ids post_ids invariant_ids : List String) :
    List Step → List String → List String
  | [], _ => []
  | s :: ss, seen =>
      stepIssueList seen pre_ids post_ids invariant_ids s
        ++ stepIssuesGo pre_ids post_ids invariant_ids ss (s.id :: seen)

/-- The edge-endpoint checks of `StepGraphValidator.validate` (lines 98-102). -/
def edgeIssues (graph : StepGraph) : List String :=
  graph.edges.flatMap fun ab =>
    (if !((stepIds graph).contains ab.1) then ["Edge parent " ++ ab.1 ++ " not a step id"] else []) ++
    (if !((stepIds graph).contains ab.2) then ["Edge child " ++ ab.2 ++ " not a step id"] else [])

/-- Python's `set(graph.order) == step_ids`: equality of member sets,
ignoring multiplicity and order. -/
def sameMembers (order ids : List String) : Bool :=
  order.all (fun x => ids.contains x) && ids.all (fun x => order.contains x)

/-- The `order` check of `StepGraphValidator.validate` (lines 104-106):
a non-empty `order` is compared to the step-ID set by set equality only. -/
def orderIssues (graph : StepGraph) : List String :=
  if !(graph.order.isEmpty) then
    if !(sameMembers graph.order (stepIds graph)) then
      ["Order does not cover exactly all step ids"]
    else []
  else []

/-- All issues `StepGraphValidator.validate` collects, in source order. -/
def stepGraphIssues (graph : StepGraph) (pre_ids post_ids invariant_ids : List String) :
    List String :=
  stepIssuesGo pre_ids post_ids invariant_ids graph.steps []
    ++ edgeIssues graph ++ orderIssues graph

/-- Mirrors `StepGraphValidator.validate`: raising
`StepGraphValidationError` with the issues joined by `"; "` is modelled as
`Except.error`; the silent return is `Except.ok ()`. The Python `set`
arguments `pre_ids`/`post_ids`/`invariant_ids` are passed as listings whose
membership is the set. -/
def StepGraphValidator_validate (graph : StepGraph)
    (pre_ids post_ids invariant_ids : List String) : Except String Unit :=
  let issues := stepGraphIssues graph pre_ids post_ids invariant_ids
  if issues.isEmpty then Except.ok ()
  else Except.error (String.intercalate "; " issues)

/-- One round of the retry loop shared by
`FunctionalCodeGenerator.generate_spec` (lines 228-300) and
`generate_step_graph` (lines 318-377): each `while attempt < max_attempts`
iteration increments `attempt`, makes exactly one `self.llm.call`, and either
returns the artifact or falls through to the next iteration with a repair
prompt. The oracle is modelled as a function of the number of calls already
made (the messages it sees are a deterministic function of that history), and
all of parse / schema / semantic validation of one response collapse into
`parse_and_validate` (`none` models any of the `continue` branches).
Returns (number of oracle calls made, outcome). -/
def gen_loop {α : Type} (oracle : Nat → String) (parse_and_validate : String → Option α) :
    Nat → Nat → Nat × Option α
  | calls, 0 => (calls, none)
  | calls, rem + 1 =>
      let raw := oracle calls
      match parse_and_validate raw with
      | some artifact => (calls + 1, some artifact)
      | none => gen_loop oracle parse_and_validate (calls + 1) rem

/-- Mirrors the retry structure of `generate_spec`: `max_attempts = 4`
(line 221); exhausting the loop raises
`RuntimeError("Failed to generate valid spec within retry limit")`. -/
def generate_spec {α : Type} (oracle : Nat → String) (parse_and_validate : String → Option α) :
    Nat × Except String α :=
  match gen_loop oracle parse_and_validate 0 4 with
  | (calls, some artifact) => (calls, Except.ok artifact)
  | (calls, none) => (calls, Except.error "Failed to generate valid spec within retry limit")

/-- Mirrors the retry structure of `generate_step_graph`: `max_attempts = 3`
(line 311); exhausting the loop raises
`RuntimeError("Failed to generate StepGraph within retry limit")`. -/
def generate_step_graph {α : Type} (oracle : Nat → String)
    (parse_and_validate : String → Option α) : Nat × Except String α :=
  match gen_loop oracle parse_and_validate 0 3 with
  | (calls, some artifact) => (calls, Except.ok artifact)
  | (calls, none) => (calls, Except.error "Failed to generate StepGraph within retry limit")

/-- A single-quote character, for modelling Python `repr` of strings. -/
def sq : String := String.singleton (Char.ofNat 39)

mutual

/-- Models Python's `repr` builtin on the embedded value universe. -/
def pyRepr : PyVal → String
  | .noneV => "None"
  | .bool true => "True"
  | .bool false => "False"
  | .int n => toString n
  | .str s => sq ++ s ++ sq
  | .list xs => "[" ++ pyReprList xs ++ "]"
  | .dict xs => "\x7b" ++ pyReprDict xs ++ "\x7d"
  | .obj c => "<" ++ c ++ " object>"

/-- Comma-joined `repr` of list elements. -/
def pyReprList : List PyVal → String
  | [] => ""
  | [x] => pyRepr x
  | x :: xs => pyRepr x ++ ", " ++ pyReprList xs

/-- Comma-joined `repr` of dict entries. -/
def pyReprDict : List (String × PyVal) → String
  | [] => ""
  | [kv] => sq ++ kv.1 ++ sq ++ ": " ++ pyRepr kv.2
  | kv :: xs => sq ++ kv.1 ++ sq ++ ": " ++ pyRepr kv.2 ++ ", " ++ pyReprDict xs

end

/-- Models Python's `str` builtin: identity on strings, `repr` otherwise. -/
def pyStr : PyVal → String
  | .str s => s
  | v => pyRepr v

/-- Mirrors `ExecutionStatus` of `src/core/code_executor.py`. -/
inductive ExecStatus where
  | success
  | failure
  | timeout
  | security_error
  deriving DecidableEq, Repr

/-- The slice of `ExecutionResult` that `ValidateTool._run_single_test`
reads (`status`, `stdout`, `error`). -/
structure ExecResult where
  status : ExecStatus
  stdout : String := ""
  error : Option String := none

/-- Mirrors `TestResult` of `src/tools/validate_tool.py`. -/
structure TestResult where
  test_name : String
  passed : Bool
  input_values : List (String × PyVal)
  expected_output : PyVal
  actual_output : Option PyVal := none
  error : Option String := none

/-- Mirrors `ValidationResult` of `src/tools/validate_tool.py`. The
line-effectiveness fields (`line_effectiveness_score`,
`line_effectiveness_analysis`, `has_redundant_code`) belong to the cognitive
instrumentation outside the modelled core; they never influence `is_valid`,
the test results, or any control flow, and are omitted. -/
structure ValidationResult where
  is_valid : Bool
  total_tests : Nat
  passed_count : Nat
  test_results : List TestResult
  suggestions : List String := []

/-- The slice of `ToolOutput` (`src/tools/base.py`) that the workflow reads:
`success_result` sets status `success`, `warning_result` sets `warning`. -/
structure ToolOutputModel where
  success : Bool
  status : String
  data : ValidationResult
  message : String

/-- Mirrors `Example` of `src/tools/spec_tool.py` (the agent-side example
shape, distinct from the codegen `Example`). -/
structure ToolExample where
  inputs : List (String × PyVal)
  expected_output : PyVal
  description : String := ""

/-- Mirrors `FunctionSpec` of `src/tools/spec_tool.py`, restricted to the
fields the validate/refine loop reads. -/
structure FunctionSpec where
  name : String
  purpose : String
  examples : List ToolExample
  edge_cases : List String := []

/-- The test-harness template of `ValidateTool._run_single_test`
(lines 159-169). -/
def build_test_code (code func_name args_str : String) : String :=
  "\n" ++ code ++ "\n\n# 运行测试\ntry:\n    result = " ++ func_name ++ "(" ++ args_str
    ++ ")\n    print(\"RESULT:\", repr(result))\nexcept Exception as e:\n    print(\"ERROR:\", str(e))\n    print(\"ERROR_TYPE:\", type(e).__name__)\n"

/-- Mirrors `ValidateTool._run_single_test`. The sandboxed executor and
Python's `eval` of the printed repr are external and modelled by the
`execRun` and `pyEval` arguments (`pyEval none` models an eval exception). -/
def run_single_test (execRun : String → ExecResult) (pyEval : String → Option PyVal)
    (code func_name test_name : String) (inputs : List (String × PyVal))
    (expected_output : PyVal) : TestResult :=
  let args_str := String.intercalate ", " (inputs.map fun kv => kv.1 ++ "=" ++ pyRepr kv.2)
  let test_code := build_test_code code func_name args_str
  let exec_result := execRun test_code
  match exec_result.status with
  | .success =>
      let output := exec_result.stdout.trim
      if output.startsWith "RESULT:" then
        let actual_output_str := (output.replace "RESULT:" "").trim
        match pyEval actual_output_str with
        | some actual =>
            let passed := pyValBeq actual expected_output
            { test_name, passed, input_values := inputs, expected_output,
              actual_output := some actual,
              error := if passed then none
                       else some ("期望 " ++ pyStr expected_output ++ ", 实际 " ++ pyStr actual) }
        | none =>
            { test_name, passed := false, input_values := inputs, expected_output,
              actual_output := none, error := some ("无法解析输出: " ++ actual_output_str) }
      else if strContains output "ERROR:" then
        let error_msg :=
          match (output.splitOn "\n").find? (fun l => l.startsWith "ERROR:") with
          | some line => (line.replace "ERROR:" "").trim
          | none => ""
        { test_name, passed := false, input_values := inputs, expected_output,
          actual_output := none, error := some ("运行时异常: " ++ error_msg) }
      else
        { test_name, passed := false, input_values := inputs, expected_output,
          actual_output := none, error := some "无法解析函数输出" }
  | _ =>
      { test_name, passed := false, input_values := inputs, expected_output,
        actual_output := none,
        error := some (match exec_result.error with
          | some s => if s == "" then "代码执行失败" else s
          | none => "代码执行失败") }

/-- Whether a failed test's error marks an output mismatch
(`"期望" in error and "实际" in error`, `validate_tool.py` line 256). -/
def suggestion_mismatch (r : TestResult) : Bool :=
  match r.error with
  | some e => strContains e "期望" && strContains e "实际"
  | none => false

/-- Whether a failed test's error marks a runtime error (the `elif` branch at
`validate_tool.py` line 258). -/
def suggestion_runtime (r : TestResult) : Bool :=
  match r.error with
  | some e =>
      !(strContains e "期望" && strContains e "实际")
        && (strContains e "异常" || strContains e "Exception")
  | none => false

/-- Mirrors `ValidateTool._generate_suggestions` (the per-category counters
only feed `> 0` tests, embedded as `any`). -/
def generate_suggestions (test_results : List TestResult) (spec : FunctionSpec) : List String :=
  let failed := test_results.filter (fun r => !r.passed)
  if failed.isEmpty then ["[SUCCESS] All tests passed, code meets requirements!"]
  else
    (if failed.any suggestion_mismatch then
      ["[CHECK] Review function logic to ensure return values match expectations"] else []) ++
    (if failed.any suggestion_runtime then
      ["[HANDLE] Handle runtime exceptions and check edge cases"] else []) ++
    (if !spec.edge_cases.isEmpty then
      ["[EDGE] Ensure handling of these edge cases: "
        ++ String.intercalate ", " (spec.edge_cases.take 2)] else [])

/-- Mirrors `ValidateTool._execute_impl`. The line-effectiveness analysis the
tool additionally attaches (cognitive subsystem, outside the core) is
omitted: it never changes `is_valid`, the test results, or which branch
returns. -/
def execute_impl (execRun : String → ExecResult) (pyEval : String → Option PyVal)
    (code : String) (spec : FunctionSpec) : ToolOutputModel :=
  if spec.examples.isEmpty then
    { success := true, status := "warning",
      data := { is_valid := true, total_tests := 0, passed_count := 0, test_results := [],
                suggestions := ["规范中没有测试用例，无法验证代码正确性"] },
      message := "没有测试用例可供验证" }
  else
    let test_results := (spec.examples.enum).map fun ie =>
      run_single_test execRun pyEval code spec.name ("Example_" ++ toString (ie.1 + 1))
        ie.2.inputs ie.2.expected_output
    let passed_count := (test_results.filter (fun r => r.passed)).length
    let total_tests := test_results.length
    let is_valid := passed_count == total_tests
    let suggestions := generate_suggestions test_results spec
    let validation_result : ValidationResult :=
      { is_valid, total_tests, passed_count, test_results, suggestions }
    if is_valid then
      { success := true, status := "success", data := validation_result,
        message := "所有测试通过: " ++ toString passed_count ++ "/" ++ toString total_tests }
    else
      { success := true, status := "warning", data := validation_result,
        message := "部分测试失败: " ++ toString passed_count ++ "/" ++ toString total_tests }

/-- Mirrors `Implementation` of `src/tools/implement_tool.py`. -/
structure Implementation where
  code : String
  explanation : String
  test_cases : List String := []

/-- Mirrors the per-failed-test block built by `RefineTool.execute`
(lines 39-45); `str` of the pydantic fields is modelled by `pyRepr`/`pyStr`. -/
def failed_test_info (t : TestResult) : String :=
  "\n测试: " ++ t.test_name
    ++ "\n输入: " ++ pyRepr (PyVal.dict t.input_values)
    ++ "\n期望输出: " ++ pyStr t.expected_output
    ++ "\n实际输出: " ++ (match t.actual_output with | some v => pyStr v | none => "N/A")
    ++ "\n错误: " ++ (match t.error with | some e => e | none => "None")
    ++ "\n"

/-- The repair prompt `RefineTool.execute` builds (lines 69-100); the
line-effectiveness feedback block depends on the omitted cognitive fields and
is left out. -/
def refine_prompt (spec : FunctionSpec) (code : String) (validation : ValidationResult) : String :=
  let failed_tests_str := String.intercalate "\n"
    ((validation.test_results.filter (fun t => !t.passed)).map failed_test_info)
  let suggestions_str := String.intercalate "\n" (validation.suggestions.map (fun s => "- " ++ s))
  "请修复以下代码的问题：\n\n原始规范：\n函数名：" ++ spec.name
    ++ "\n目的：" ++ spec.purpose
    ++ "\n\n当前实现：\n```python\n" ++ code ++ "\n```\n\n测试结果：通过 "
    ++ toString validation.passed_count ++ "/" ++ toString validation.total_tests
    ++ " 个测试\n\n失败的测试：\n" ++ failed_tests_str
    ++ "\n\n改进建议：\n" ++ suggestions_str
    ++ "\n\n要求：\n1. 仔细分析失败原因\n2. 修复所有测试失败的问题\n3. 确保处理所有边界情况\n4. 删除所有冗余和未使用的代码行\n5. 保持代码清晰和高效\n6. 不要改变函数签名（除非规范要求）\n"

/-- Mirrors `RefineOutput` of `src/tools/refine_tool.py` restricted to the
fields the workflow reads. -/
structure RefineOutput where
  success : Bool
  data : Option Implementation
  message : String

/-- Mirrors `RefineTool.execute`: the structured oracle call
`self.llm.generate_structured` is external and modelled by `llm_gen`
(`none` models it raising). An exception yields `success := False`;
otherwise the oracle's implementation is returned with `success := True`. -/
def refine_execute (llm_gen : String → Option Implementation)
    (input_code : String) (spec : FunctionSpec) (validation : ValidationResult) : RefineOutput :=
  let prompt := refine_prompt spec input_code validation
  match llm_gen prompt with
  | some response =>
      { success := true, data := some response,
        message := "已优化代码，修复了 "
          ++ toString (validation.total_tests - validation.passed_count) ++ " 个测试" }
  | none => { success := false, data := none, message := "优化代码失败" }

/-- The view of the refine tool the workflow loop consumes:
`none` exactly when `RefineTool.execute` reports `success == False`. -/
def refine_as_oracle (llm_gen : String → Option Implementation) (spec : FunctionSpec) :
    String → ValidationResult → Option Implementation :=
  fun code v =>
    let r := refine_execute llm_gen code spec v
    if r.success then r.data else none

/-- The dictionary `CodeGenAgent._execute_workflow` returns from the
validate/refine loop (restricted to the loop; the `spec` field and
`message` are constant per branch and omitted). -/
structure WorkflowResult where
  success : Bool
  code : String
  explanation : String
  validation : ValidationResult
  refine_attempts : Nat

/-- A run of the loop together with its observable trace: the validation
produced by each VALIDATING iteration in order, and the number of
invocations of the refine tool. -/
structure WorkflowRun where
  result : WorkflowResult
  validations : List ValidationResult
  refine_calls : Nat

/-- Mirrors the `for attempt in range(self.max_refine_attempts)` loop of
`CodeGenAgent._execute_workflow` (lines 117-170). The fuel argument is the
number of remaining iterations (`maxA - attempt`); Python's
`attempt < self.max_refine_attempts - 1` is `0 < rem`. `refineC` returning
`none` is the `not refine_result.success` break, which falls through to the
terminal failure return carrying the current code and the validation of the
iteration that broke. The fuel-0 case is unreachable from `execute_workflow_loop`
with a positive budget and only totalizes the recursion. -/
def workflow_go (validateC : String → ValidationResult)
    (refineC : String → ValidationResult → Option Implementation)
    (maxA : Nat) : Nat → String → String → WorkflowRun
  | 0, code, expl =>
      let v := validateC code
      { result := { success := false, code, explanation := expl, validation := v,
                    refine_attempts := maxA },
        validations := [v], refine_calls := 0 }
  | rem + 1, code, expl =>
      let v := validateC code
      if v.is_valid then
        { result := { success := true, code, explanation := expl, validation := v,
                      refine_attempts := maxA - (rem + 1) },
          validations := [v], refine_calls := 0 }
      else if 0 < rem then
        match refineC code v with
        | none =>
            { result := { success := false, code, explanation := expl, validation := v,
                          refine_attempts := maxA },
              validations := [v], refine_calls := 1 }
        | some refined =>
            let sub := workflow_go validateC refineC maxA rem refined.code refined.explanation
            { result := sub.result, validations := v :: sub.validations,
              refine_calls := sub.refine_calls + 1 }
      else
        { result := { success := false, code, explanation := expl, validation := v,
                      refine_attempts := maxA },
          validations := [v], refine_calls := 0 }

/-- Entry point of the validate/refine loop (steps 3-4 of
`_execute_workflow`), starting from the implementation produced by step 2.
With a zero budget Python's loop body never runs and the trailing
`validation.model_dump()` hits an unbound local, modelled as `none`; the
agent's default budget is 3. -/
def execute_workflow_loop (validateC : String → ValidationResult)
    (refineC : String → ValidationResult → Option Implementation)
    (max_refine_attempts : Nat) (code explanation : String) : Option WorkflowRun :=
  if max_refine_attempts == 0 then none
  else some (workflow_go validateC refineC max_refine_attempts max_refine_attempts code explanation)

/-- Whether a node is a call whose extracted callee name is outside the
whitelist (the condition under which the walk emits `PRED_UNSAFE_NODE`). -/
def isDisallowedCall : PyExpr → Bool
  | .call f args => !(SAFE_CALL_WHITELIST.contains (extract_call_name (.call f args)))
  | _ => false

/-- Whether some node of the tree is a disallowed call. -/
def hasDisallowedCall (e : PyExpr) : Bool :=
  (walkNodes e).any isDisallowedCall

/-- A step carries a reference that is absent from the corresponding
predicate-ID set. -/
def badRefs (pre_ids post_ids invariant_ids : List String) (s : Step) : Prop :=
  (∃ r ∈ s.pre_refs, r ∉ pre_ids) ∨ (∃ r ∈ s.post_refs, r ∉ post_ids)
    ∨ (∃ r ∈ s.invariant_refs, r ∉ invariant_ids)

instance (pre_ids post_ids invariant_ids : List String) (s : Step) :
    Decidable (badRefs pre_ids post_ids invariant_ids s) := by
  unfold badRefs; infer_instance

/-- Parse stub for the concrete specifications below: models Python's
`ast.parse` on the two predicate expressions they contain (`x` parses to a
load of the name `x`, everything else here to a load of `result`). -/
def parseC6 : String → Except String PyExpr := fun s =>
  if s == "x" then Except.ok (PyExpr.name "x" PyCtx.load)
  else Except.ok (PyExpr.name "result" PyCtx.load)

/-- A specification that passes every check except that its positive example
sets `raises` to the empty string: non-null, but falsy in Python. -/
def specC6 : Spec :=
  { main_function := some { name := "f", signature := { return_type := "int" } },
    types := { parameters := [{ name := "x", type := "int" }] },
    pre := [{ id := "P1", expr := "x" }],
    post := [{ id := "Q1", expr := "result" }],
    examples := { positive := [{ id := "e1", inputs := [("x", PyVal.int 1)],
                                 output := PyVal.int 1, raises := some "" }] } }

/-- A specification whose only negative example sets a non-null `output`. -/
def specC6n : Spec :=
  { main_function := some { name := "f", signature := { return_type := "int" } },
    types := { parameters := [{ name := "x", type := "int" }] },
    pre := [{ id := "P1", expr := "x" }],
    post := [{ id := "Q1", expr := "result" }],
    examples := { negative := [{ id := "n1", inputs := [("x", PyVal.int 1)],
                                 output := PyVal.int 3, raises := some "ValueError" }] } }

/-- Two well-formed steps with an `order` that lists `S1` twice: the member
set of `order` equals the step-ID set but the cardinalities differ. -/
def graphC2 : StepGraph :=
  { steps := [{ id := "S1", intent := "first step" }, { id := "S2", intent := "second step" }],
    order := ["S1", "S2", "S1"] }

/-- A graph whose `order` names a foreign step id. -/
def graphC2w : StepGraph :=
  { steps := [{ id := "S1", intent := "only step" }], order := ["S9"] }

/-- A graph whose references all resolve (vacuously) and whose `order` is a
complete duplicate-free listing, but whose step has an empty `intent`. -/
def graphC3 : StepGraph :=
  { steps := [{ id := "S1", intent := "" }], order := ["S1"] }

/-- A graph with an unresolved `pre_ref`. -/
def graphC3bad : StepGraph :=
  { steps := [{ id := "S1", intent := "load input", pre_refs := ["P9"] }], order := ["S1"] }

/-- The two-step scenario of the spec: valid references, valid edge, complete
duplicate-free order. -/
def graphC3good : StepGraph :=
  { steps := [{ id := "S1", intent := "check input", pre_refs := ["P1"] },
              { id := "S2", intent := "compute result", post_refs := ["Q1"] }],
    edges := [("S1", "S2")],
    order := ["S1", "S2"] }

/-- Executor stub that always fails. -/
def wExecFail : String → ExecResult := fun _ => { status := ExecStatus.failure, error := some "boom" }

/-- Eval stub that always fails. -/
def wEvalNone : String → Option PyVal := fun _ => none

/-- A one-example function specification for workflow fixtures. -/
def wSpec1 : FunctionSpec :=
  { name := "f", purpose := "add one",
    examples := [{ inputs := [("x", PyVal.int 1)], expected_output := PyVal.int 2 }] }

/-! Theorems. -/

/-- Concatenation of lists that are all empty is empty. -/
theorem flatMap_nil_of_forall {α β : Type} (l : List α) (f : α → List β)
    (h : ∀ x ∈ l, f x = []) : l.flatMap f = [] := by
  induction l with
  | nil => rfl
  | cons a as ih =>
      simp only [List.flatMap_cons, h a (by simp), List.nil_append]
      exact ih (fun x hx => h x (by simp [hx]))

/-- When every oracle response fails parse-and-validate, the retry loop makes
one call per remaining attempt and ends with no artifact. -/
theorem gen_loop_all_fail {α : Type} (oracle : Nat → String) (pv : String → Option α)
    (h : ∀ s, pv s = none) : ∀ (rem calls : Nat),
    gen_loop oracle pv calls rem = (calls + rem, none) := by
  intro rem
  induction rem with
  | zero => intro calls; simp [gen_loop]
  | succ n ih =>
      intro calls
      rw [gen_loop, h (oracle calls), ih (calls + 1)]
      ring_nf

/-- C4: If the oracle always returns text that never produces a valid
artifact, the generation-with-repair driver makes exactly `max_attempts`
oracle calls (4 in `generate_spec`, 3 in `generate_step_graph`) and then
raises a terminal error; it never loops beyond the budget and never returns
success. -/
theorem C4_retry_budget {α : Type} (oracle : Nat → String) (pv : String → Option α)
    (h : ∀ s, pv s = none) :
    generate_spec oracle pv = (4, Except.error "Failed to generate valid spec within retry limit")
    ∧ generate_step_graph oracle pv
        = (3, Except.error "Failed to generate StepGraph within retry limit") := by
  constructor
  · rw [generate_spec, gen_loop_all_fail oracle pv h 4 0]
  · rw [generate_step_graph, gen_loop_all_fail oracle pv h 3 0]

/-- Witness for C4 at a concrete always-invalid oracle stub. -/
theorem C4_retry_budget_witness :
    generate_spec (fun _ => "not json") (fun _ => (none : Option Unit))
        = (4, Except.error "Failed to generate valid spec within retry limit")
    ∧ generate_step_graph (fun _ => "not json") (fun _ => (none : Option Unit))
        = (3, Except.error "Failed to generate StepGraph within retry limit") :=
  C4_retry_budget (fun _ => "not json") (fun _ => none) (fun _ => rfl)

/-- C5: `SpecValidator.validate` collects every issue of every check and then
has exactly two outcomes: when at least one ERROR was collected it raises a
single `SpecValidationError` whose message is the newline-join of every
formatted ERROR issue, and when no ERROR was collected it returns
`([], warnings)`; warnings alone never make it raise. -/
theorem C5_validate_outcomes (parse : String → Except String PyExpr) (spec : Spec) :
    (spec_errors parse spec = [] ∧
      SpecValidator_validate parse spec = Except.ok ([], spec_warnings parse spec))
    ∨ (spec_errors parse spec ≠ [] ∧
      SpecValidator_validate parse spec =
        Except.error (String.intercalate "\n"
          ((spec_errors parse spec).map ValidationIssue.format))) := by
  by_cases h : (spec_collect parse spec).1 = []
  · left
    exact ⟨h, by simp [SpecValidator_validate, spec_errors, spec_warnings, h]⟩
  · right
    refine ⟨h, ?_⟩
    simp only [SpecValidator_validate, spec_errors, List.isEmpty_iff]
    rw [if_neg h]

/-- C9: A specification with no examples is reported valid without running
anything: `is_valid = true`, zero tests, empty result list, and the outcome
does not depend on the executor or on `eval` at all (they are never
invoked). -/
theorem C9_no_examples_valid (execRun execRun2 : String → ExecResult)
    (pyEval pyEval2 : String → Option PyVal) (code : String) (spec : FunctionSpec)
    (h : spec.examples = []) :
    execute_impl execRun pyEval code spec =
      { success := true, status := "warning",
        data := { is_valid := true, total_tests := 0, passed_count := 0, test_results := [],
                  suggestions := ["规范中没有测试用例，无法验证代码正确性"] },
        message := "没有测试用例可供验证" }
    ∧ execute_impl execRun pyEval code spec = execute_impl execRun2 pyEval2 code spec := by
  constructor
  · simp [execute_impl, h]
  · simp [execute_impl, h]

/-- Witness for C9 at a concrete example-free specification. -/
theorem C9_no_examples_valid_witness :
    execute_impl (fun _ => { status := ExecStatus.failure }) (fun _ => none) "def f(): pass"
        { name := "f", purpose := "p", examples := [] } =
      { success := true, status := "warning",
        data := { is_valid := true, total_tests := 0, passed_count := 0, test_results := [],
                  suggestions := ["规范中没有测试用例，无法验证代码正确性"] },
        message := "没有测试用例可供验证" } :=
  (C9_no_examples_valid (fun _ => { status := ExecStatus.failure }) (fun _ => { status := ExecStatus.success })
    (fun _ => none) (fun _ => none) "def f(): pass"
    { name := "f", purpose := "p", examples := [] } rfl).1

/-- C10: The expression validator judges a call solely by the callee's final
name (`_extract_call_name` returns the attribute of an `ast.Attribute`
callee): an attribute call whose final name is whitelisted produces no
`PRED_UNSAFE_NODE` error for that call, while one whose final name is outside
the whitelist is rejected with `PRED_UNSAFE_NODE`; illustrated on full
validator runs over `obj.len(x)` and `obj.system(x)`. -/
theorem C10_attribute_call_final_name (v : PyExpr) (a : String) (args : List PyExpr)
    (loc : String) (params : List String) :
    extract_call_name (PyExpr.call (PyExpr.attrN v a) args) = a
    ∧ (nodeIssues loc params (PyExpr.call (PyExpr.attrN v a) args)).1 =
        (if SAFE_CALL_WHITELIST.contains a then []
         else [mk_err "PRED_UNSAFE_NODE" loc ("Call not allowed: " ++ a)])
    ∧ (validate_expr "obj.len(x)"
        (Except.ok (PyExpr.call (PyExpr.attrN (PyExpr.name "obj" PyCtx.load) "len")
          [PyExpr.name "x" PyCtx.load])) ["obj", "x"] "post.Q1.expr").1 = []
    ∧ (validate_expr "obj.system(x)"
        (Except.ok (PyExpr.call (PyExpr.attrN (PyExpr.name "obj" PyCtx.load) "system")
          [PyExpr.name "x" PyCtx.load])) ["obj", "x"] "post.Q1.expr").1 =
        [mk_err "PRED_UNSAFE_NODE" "post.Q1.expr" "Call not allowed: system"] := by
  refine ⟨rfl, ?_, by decide, by decide⟩
  by_cases h : a ∈ SAFE_CALL_WHITELIST <;> simp [nodeIssues, extract_call_name, h]

/-- C8: In the validate/refine workflow, when the current code fails
validation and the refine tool reports failure (`success == False`, i.e. the
oracle raised), the loop breaks immediately: the run returns a failure
result carrying the current code and the validation report of that very
iteration, performs no further validation, and invokes the refine tool
exactly once (the failed refinement is never retried). -/
theorem C8_refine_failure_aborts (execRun : String → ExecResult) (pyEval : String → Option PyVal)
    (spec : FunctionSpec) (llm_gen : String → Option Implementation)
    (maxA rem : Nat) (code expl : String)
    (hv : ((execute_impl execRun pyEval code spec).data).is_valid = false)
    (hr : (refine_execute llm_gen code spec
        ((execute_impl execRun pyEval code spec).data)).success = false)
    (hrem : 0 < rem) :
    workflow_go (fun c => (execute_impl execRun pyEval c spec).data)
        (refine_as_oracle llm_gen spec) maxA (rem + 1) code expl =
      { result := { success := false, code := code, explanation := expl,
                    validation := (execute_impl execRun pyEval code spec).data,
                    refine_attempts := maxA },
        validations := [(execute_impl execRun pyEval code spec).data],
        refine_calls := 1 } := by
  have hnone : refine_as_oracle llm_gen spec code
      ((execute_impl execRun pyEval code spec).data) = none := by
    simp [refine_as_oracle, hr]
  rw [workflow_go]
  simp only [hv, Bool.false_eq_true, if_false, hrem, if_true, hnone]

/-- Witness for C8: a failing one-example spec, a failing executor, and an
oracle that always raises during refinement. -/
theorem C8_refine_failure_aborts_witness :
    workflow_go (fun c => (execute_impl wExecFail wEvalNone c wSpec1).data)
        (refine_as_oracle (fun _ => none) wSpec1) 3 2 "bad code" "expl" =
      { result := { success := false, code := "bad code", explanation := "expl",
                    validation := (execute_impl wExecFail wEvalNone "bad code" wSpec1).data,
                    refine_attempts := 3 },
        validations := [(execute_impl wExecFail wEvalNone "bad code" wSpec1).data],
        refine_calls := 1 } :=
  C8_refine_failure_aborts wExecFail wEvalNone wSpec1 (fun _ => none) 3 1 "bad code" "expl"
    (by rfl) (by rfl) (by decide)

/-- A disallowed call anywhere in the walked tree yields a
`PRED_UNSAFE_NODE` ERROR in the walk's error accumulator. -/
theorem walk_error_of_disallowed (loc : String) (params : List String) (node : PyExpr)
    (h : hasDisallowedCall node = true) :
    ∃ i ∈ ((walkNodes node).map (nodeIssues loc params)).flatMap Prod.fst,
      i.code = "PRED_UNSAFE_NODE" ∧ i.severity = "ERROR" := by
  rcases List.any_eq_true.mp h with ⟨n, hn, hbad⟩
  cases n with
  | call f args =>
      have hc : (SAFE_CALL_WHITELIST.contains (extract_call_name (PyExpr.call f args))) = false := by
        simpa [isDisallowedCall] using hbad
      refine ⟨mk_err "PRED_UNSAFE_NODE" loc
        ("Call not allowed: " ++ extract_call_name (PyExpr.call f args)), ?_, rfl, rfl⟩
      refine List.mem_flatMap.mpr ⟨nodeIssues loc params (PyExpr.call f args),
        List.mem_map.mpr ⟨PyExpr.call f args, hn, rfl⟩, ?_⟩
      simp only [nodeIssues, hc, Bool.false_eq_true, if_false]
      exact List.mem_singleton_self _
  | constant => simp [isDisallowedCall] at hbad
  | name i c => simp [isDisallowedCall] at hbad
  | attrN v a => simp [isDisallowedCall] at hbad
  | lam b => simp [isDisallowedCall] at hbad
  | boolOp vs => simp [isDisallowedCall] at hbad
  | binOp l r => simp [isDisallowedCall] at hbad
  | unaryOp e => simp [isDisallowedCall] at hbad
  | compare l cs => simp [isDisallowedCall] at hbad
  | subscript v i => simp [isDisallowedCall] at hbad
  | listD es => simp [isDisallowedCall] at hbad

/-- C1 counterexample: the expression `important` contains the substring
`import`, yet `_validate_expr` records no ERROR at all for it — the quick
scan only looks for `import ` with a trailing space (and `__import__`), and
the parsed tree is a plain name. -/
theorem C1_counterexample :
    strContains "important" "import" = true
    ∧ (validate_expr "important" (Except.ok (PyExpr.name "important" PyCtx.load))
        [] "pre.P1.expr").1 = [] := by
  constructor
  · decide
  · decide

/-- C1 amended: for every expression whose raw text contains one of the
scanned tokens `;`, `__import__`, `import ` (with trailing space), `exec(`
or `eval(`, or whose parse tree contains a call to a name outside the safe
whitelist, `_validate_expr` records at least one ERROR issue with code
`PRED_UNSAFE_NODE` or `PRED_EXPR_INVALID`; the validator is a pure function
of the expression text and its parse tree and never evaluates the
expression. (Bare `import` without the trailing space, as in `important`,
is not flagged.) -/
theorem C1_amended_expr_safety (expr : String) (parsed : Except String PyExpr)
    (params : List String) (loc : String)
    (h : has_forbidden_token expr = true
      ∨ ∃ node, parsed = Except.ok node ∧ hasDisallowedCall node = true) :
    ∃ i ∈ (validate_expr expr parsed params loc).1,
      (i.code = "PRED_UNSAFE_NODE" ∨ i.code = "PRED_EXPR_INVALID") ∧ i.severity = "ERROR" := by
  by_cases hs : has_forbidden_token expr = true
  · refine ⟨mk_err "PRED_UNSAFE_NODE" loc "Contains forbidden token", ?_, Or.inl rfl, rfl⟩
    simp [validate_expr, hs]
  · rcases h with h | ⟨node, hp, hbad⟩
    · exact absurd h hs
    · subst hp
      have hsf : has_forbidden_token expr = false := by
        simpa using hs
      obtain ⟨i, hi, hcode, hsev⟩ := walk_error_of_disallowed loc params node hbad
      refine ⟨i, ?_, Or.inl hcode, hsev⟩
      have hval : (validate_expr expr (Except.ok node) params loc).1
          = ((walkNodes node).map (nodeIssues loc params)).flatMap Prod.fst := by
        simp [validate_expr, hsf]
      rw [hval]
      exact hi

/-- Witness for C1 amended at the concrete expressions `eval(x)` (token
scan) and `system(x)` (disallowed call in the parse tree). -/
theorem C1_amended_expr_safety_witness :
    (∃ i ∈ (validate_expr "eval(x)" (Except.error "boom") [] "pre.P1.expr").1,
      (i.code = "PRED_UNSAFE_NODE" ∨ i.code = "PRED_EXPR_INVALID") ∧ i.severity = "ERROR")
    ∧ (∃ i ∈ (validate_expr "system(x)"
        (Except.ok (PyExpr.call (PyExpr.name "system" PyCtx.load) [PyExpr.name "x" PyCtx.load]))
        ["x"] "pre.P1.expr").1,
      (i.code = "PRED_UNSAFE_NODE" ∨ i.code = "PRED_EXPR_INVALID") ∧ i.severity = "ERROR") :=
  ⟨C1_amended_expr_safety "eval(x)" (Except.error "boom") [] "pre.P1.expr" (Or.inl (by decide)),
   C1_amended_expr_safety "system(x)"
     (Except.ok (PyExpr.call (PyExpr.name "system" PyCtx.load) [PyExpr.name "x" PyCtx.load]))
     ["x"] "pre.P1.expr" (Or.inr ⟨_, rfl, by decide⟩)⟩

/-- C2 counterexample: `graphC2`'s order lists `S1` twice — its member set
equals the step-ID set but its cardinality is larger, so it is not a
permutation of the step IDs — yet `StepGraphValidator.validate` accepts the
graph, because line 105 compares `set(order)` to the step-ID set. -/
theorem C2_counterexample :
    graphC2.order ≠ []
    ∧ sameMembers graphC2.order (stepIds graphC2) = true
    ∧ (stepIds graphC2).length < graphC2.order.length
    ∧ ¬ graphC2.order.Nodup
    ∧ StepGraphValidator_validate graphC2 [] [] [] = Except.ok () := by
  refine ⟨by decide, by decide, by decide, by decide, by rfl⟩

/-- C2 amended: for every StepGraph with a non-empty `order`, the validator
raises whenever the member set of `order` differs from the step-ID set, but
the order check contributes no issue whenever the member sets coincide — in
particular an order that lists a step id twice while staying within the
step-ID set is not rejected by `StepGraphValidator.validate` (duplicate
detection happens later, in `generate_step_graph`). -/
theorem C2_amended_order_set_check (graph : StepGraph)
    (pre_ids post_ids invariant_ids : List String) (hne : graph.order ≠ []) :
    (sameMembers graph.order (stepIds graph) = false →
      ∃ m, StepGraphValidator_validate graph pre_ids post_ids invariant_ids = Except.error m)
    ∧ (sameMembers graph.order (stepIds graph) = true → orderIssues graph = []) := by
  have hne' : graph.order.isEmpty = false := by
    simpa [List.isEmpty_iff] using hne
  constructor
  · intro hsm
    have horder : orderIssues graph = ["Order does not cover exactly all step ids"] := by
      simp [orderIssues, hne', hsm]
    have hissues : stepGraphIssues graph pre_ids post_ids invariant_ids ≠ [] := by
      intro hcon
      have h2 := (List.append_eq_nil.mp hcon).2
      rw [horder] at h2
      exact absurd h2 (by simp)
    refine ⟨String.intercalate "; " (stepGraphIssues graph pre_ids post_ids invariant_ids), ?_⟩
    have hiempty : (stepGraphIssues graph pre_ids post_ids invariant_ids).isEmpty = false := by
      simpa [List.isEmpty_iff] using hissues
    simp [StepGraphValidator_validate, hiempty]
  · intro hsm
    simp [orderIssues, hne', hsm]

/-- Witness for C2 amended: the order of `graphC2w` names a foreign id, so
validation raises. -/
theorem C2_amended_order_set_check_witness :
    ∃ m, StepGraphValidator_validate graphC2w [] [] [] = Except.error m :=
  (C2_amended_order_set_check graphC2w [] [] [] (by decide)).1 (by decide)

/-- A step with an unresolved reference always contributes at least one
issue string. -/
theorem stepIssueList_ne_nil (seen pre_ids post_ids invariant_ids : List String) (s : Step)
    (h : badRefs pre_ids post_ids invariant_ids s) :
    stepIssueList seen pre_ids post_ids invariant_ids s ≠ [] := by
  intro hcon
  unfold stepIssueList at hcon
  simp only [List.append_eq_nil] at hcon
  rcases h with ⟨r, hr, hmem⟩ | ⟨r, hr, hmem⟩ | ⟨r, hr, hmem⟩
  · have hcont : pre_ids.contains r = false := by simpa using hmem
    have hin : ("Step " ++ s.id ++ " unknown pre_ref " ++ r) ∈ s.pre_refs.flatMap
        (fun r => if !(pre_ids.contains r)
          then ["Step " ++ s.id ++ " unknown pre_ref " ++ r] else []) :=
      List.mem_flatMap.mpr ⟨r, hr, by rw [hcont]; simp⟩
    rw [hcon.1.1.2] at hin
    exact List.not_mem_nil _ hin
  · have hcont : post_ids.contains r = false := by simpa using hmem
    have hin : ("Step " ++ s.id ++ " unknown post_ref " ++ r) ∈ s.post_refs.flatMap
        (fun r => if !(post_ids.contains r)
          then ["Step " ++ s.id ++ " unknown post_ref " ++ r] else []) :=
      List.mem_flatMap.mpr ⟨r, hr, by rw [hcont]; simp⟩
    rw [hcon.1.2] at hin
    exact List.not_mem_nil _ hin
  · have hcont : invariant_ids.contains r = false := by simpa using hmem
    have hin : ("Step " ++ s.id ++ " unknown invariant_ref " ++ r) ∈ s.invariant_refs.flatMap
        (fun r => if !(invariant_ids.contains r)
          then ["Step " ++ s.id ++ " unknown invariant_ref " ++ r] else []) :=
      List.mem_flatMap.mpr ⟨r, hr, by rw [hcont]; simp⟩
    rw [hcon.2] at hin
    exact List.not_mem_nil _ hin

/-- The step loop reports at least one issue when some step has an
unresolved reference. -/
theorem stepIssuesGo_ne_nil (pre_ids post_ids invariant_ids : List String) :
    ∀ (steps : List Step) (seen : List String),
    (∃ s ∈ steps, badRefs pre_ids post_ids invariant_ids s) →
    stepIssuesGo pre_ids post_ids invariant_ids steps seen ≠ [] := by
  intro steps
  induction steps with
  | nil =>
      intro seen h
      rcases h with ⟨s, hs, _⟩
      exact absurd hs (List.not_mem_nil s)
  | cons s0 ss ih =>
      intro seen h hcon
      rw [stepIssuesGo] at hcon
      rcases List.append_eq_nil.mp hcon with ⟨h1, h2⟩
      rcases h with ⟨s, hs, hbad⟩
      rcases List.mem_cons.mp hs with rfl | hmem
      · exact stepIssueList_ne_nil seen pre_ids post_ids invariant_ids s hbad h1
      · exact ih (s0.id :: seen) ⟨s, hmem, hbad⟩ h2

/-- A step of a well-formed graph contributes no issues. -/
theorem stepIssueList_eq_nil (seen pre_ids post_ids invariant_ids : List String) (s : Step)
    (hid : s.id ≠ "") (hseen : s.id ∉ seen) (hint : s.intent ≠ "")
    (hpre : ∀ r ∈ s.pre_refs, r ∈ pre_ids) (hpost : ∀ r ∈ s.post_refs, r ∈ post_ids)
    (hinv : ∀ r ∈ s.invariant_refs, r ∈ invariant_ids) :
    stepIssueList seen pre_ids post_ids invariant_ids s = [] := by
  unfold stepIssueList
  have h1 : (s.id == "") = false := by simpa using hid
  have h2 : seen.contains s.id = false := by simpa using hseen
  have h3 : (s.intent == "") = false := by simpa using hint
  rw [h1, h2, h3,
    flatMap_nil_of_forall _ _ (fun r hr => by simp [hpre r hr]),
    flatMap_nil_of_forall _ _ (fun r hr => by simp [hpost r hr]),
    flatMap_nil_of_forall _ _ (fun r hr => by simp [hinv r hr])]
  simp

/-- The step loop reports no issues over well-formed steps whose ids are
fresh for the accumulated `id_set`. -/
theorem stepIssuesGo_eq_nil (pre_ids post_ids invariant_ids : List String) :
    ∀ (steps : List Step) (seen : List String),
    (∀ s ∈ steps, s.id ≠ "" ∧ s.intent ≠ ""
      ∧ (∀ r ∈ s.pre_refs, r ∈ pre_ids) ∧ (∀ r ∈ s.post_refs, r ∈ post_ids)
      ∧ (∀ r ∈ s.invariant_refs, r ∈ invariant_ids)) →
    (steps.map Step.id).Nodup →
    (∀ s ∈ steps, s.id ∉ seen) →
    stepIssuesGo pre_ids post_ids invariant_ids steps seen = [] := by
  intro steps
  induction steps with
  | nil => intro seen _ _ _; rfl
  | cons s0 ss ih =>
      intro seen hconds hnodup hseen
      rw [stepIssuesGo]
      obtain ⟨hid, hint, hpre, hpost, hinv⟩ := hconds s0 (List.mem_cons_self s0 ss)
      rw [stepIssueList_eq_nil seen pre_ids post_ids invariant_ids s0 hid
        (hseen s0 (List.mem_cons_self s0 ss)) hint hpre hpost hinv, List.nil_append]
      have hnodup' : (s0.id :: ss.map Step.id).Nodup := by simpa using hnodup
      apply ih (s0.id :: seen)
      · intro s hs
        exact hconds s (List.mem_cons_of_mem s0 hs)
      · exact (List.nodup_cons.mp hnodup').2
      · intro s hs hmemc
        rcases List.mem_cons.mp hmemc with heq | hmem2
        · have hin : s.id ∈ ss.map Step.id := List.mem_map.mpr ⟨s, hs, rfl⟩
          have hnot : s0.id ∉ ss.map Step.id := (List.nodup_cons.mp hnodup').1
          rw [heq] at hin
          exact hnot hin
        · exact hseen s (List.mem_cons_of_mem s0 hs) hmem2

/-- Edges whose endpoints are step ids contribute no issues. -/
theorem edgeIssues_eq_nil (graph : StepGraph)
    (h : ∀ e ∈ graph.edges, e.1 ∈ stepIds graph ∧ e.2 ∈ stepIds graph) :
    edgeIssues graph = [] := by
  unfold edgeIssues
  apply flatMap_nil_of_forall
  intro ab hab
  obtain ⟨h1, h2⟩ := h ab hab
  simp [h1, h2]

/-- C3 counterexample: `graphC3`'s references all resolve (they are empty)
and its `order` is a complete duplicate-free listing of the step IDs, yet
`StepGraphValidator.validate` raises, because the step's `intent` is empty —
the claim's converse omits the validator's other checks. -/
theorem C3_counterexample :
    (∀ s ∈ graphC3.steps, (∀ r ∈ s.pre_refs, r ∈ ([] : List String))
      ∧ (∀ r ∈ s.post_refs, r ∈ ([] : List String))
      ∧ (∀ r ∈ s.invariant_refs, r ∈ ([] : List String)))
    ∧ graphC3.order = stepIds graphC3
    ∧ graphC3.order.Nodup
    ∧ StepGraphValidator_validate graphC3 [] [] [] = Except.error "Step S1 intent empty" := by
  refine ⟨by decide, by decide, by decide, by rfl⟩

/-- C3 amended: any unresolved `pre_ref`/`post_ref`/`invariant_ref` makes
`StepGraphValidator.validate` raise; conversely a step graph whose
references all resolve, whose steps all have non-empty ids and intents with
pairwise-distinct ids, whose edge endpoints are step ids, and whose `order`
is a complete duplicate-free listing of the step IDs validates without
raising. -/
theorem C3_amended_referential_closure (graph : StepGraph)
    (pre_ids post_ids invariant_ids : List String) :
    ((∃ s ∈ graph.steps, badRefs pre_ids post_ids invariant_ids s) →
      ∃ m, StepGraphValidator_validate graph pre_ids post_ids invariant_ids = Except.error m)
    ∧ ((∀ s ∈ graph.steps, s.id ≠ "" ∧ s.intent ≠ ""
          ∧ (∀ r ∈ s.pre_refs, r ∈ pre_ids) ∧ (∀ r ∈ s.post_refs, r ∈ post_ids)
          ∧ (∀ r ∈ s.invariant_refs, r ∈ invariant_ids)) →
        (stepIds graph).Nodup →
        (∀ e ∈ graph.edges, e.1 ∈ stepIds graph ∧ e.2 ∈ stepIds graph) →
        graph.order.Nodup →
        sameMembers graph.order (stepIds graph) = true →
        StepGraphValidator_validate graph pre_ids post_ids invariant_ids = Except.ok ()) := by
  constructor
  · intro h
    have hgo : stepIssuesGo pre_ids post_ids invariant_ids graph.steps [] ≠ [] :=
      stepIssuesGo_ne_nil pre_ids post_ids invariant_ids graph.steps [] h
    have hissues : stepGraphIssues graph pre_ids post_ids invariant_ids ≠ [] := by
      intro hcon
      unfold stepGraphIssues at hcon
      exact hgo (List.append_eq_nil.mp (List.append_eq_nil.mp hcon).1).1
    have hiempty : (stepGraphIssues graph pre_ids post_ids invariant_ids).isEmpty = false := by
      simpa [List.isEmpty_iff] using hissues
    refine ⟨String.intercalate "; " (stepGraphIssues graph pre_ids post_ids invariant_ids), ?_⟩
    simp [StepGraphValidator_validate, hiempty]
  · intro hsteps hnodup hedges _ hsm
    have hgo : stepIssuesGo pre_ids post_ids invariant_ids graph.steps [] = [] :=
      stepIssuesGo_eq_nil pre_ids post_ids invariant_ids graph.steps [] hsteps hnodup
        (fun s _ => List.not_mem_nil _)
    have hedge : edgeIssues graph = [] := edgeIssues_eq_nil graph hedges
    have hord : orderIssues graph = [] := by
      unfold orderIssues
      rw [hsm]
      simp
    have hissues : stepGraphIssues graph pre_ids post_ids invariant_ids = [] := by
      unfold stepGraphIssues
      rw [hgo, hedge, hord]
      rfl
    simp [StepGraphValidator_validate, hissues]

/-- Witness for C3 amended: an unresolved `pre_ref` raises; the spec's
two-step scenario validates. -/
theorem C3_amended_referential_closure_witness :
    (∃ m, StepGraphValidator_validate graphC3bad ["P1"] [] [] = Except.error m)
    ∧ StepGraphValidator_validate graphC3good ["P1"] ["Q1"] [] = Except.ok () :=
  ⟨(C3_amended_referential_closure graphC3bad ["P1"] [] []).1 (by decide),
   (C3_amended_referential_closure graphC3good ["P1"] ["Q1"] []).2
     (by decide) (by decide) (by decide) (by decide) (by decide)⟩

/-- With a non-empty error list, `SpecValidator.validate` raises the
aggregated message. -/
theorem SpecValidator_validate_error_of_ne (parse : String → Except String PyExpr) (spec : Spec)
    (h : spec_errors parse spec ≠ []) :
    SpecValidator_validate parse spec = Except.error (String.intercalate "\n"
      ((spec_errors parse spec).map ValidationIssue.format)) := by
  have hiempty : (spec_collect parse spec).1.isEmpty = false := by
    simpa [List.isEmpty_iff, spec_errors] using h
  simp [SpecValidator_validate, spec_errors, hiempty]

/-- A negative example with non-None `output` yields an `EXAMPLE_INVALID`
error in its per-example check. -/
theorem validate_example_neg_output (params : List String) (ex : Example)
    (h : isNoneV ex.output = false) :
    ∃ i ∈ (validate_example params "negative" ex).1, i.code = "EXAMPLE_INVALID" := by
  refine ⟨mk_err "EXAMPLE_INVALID"
    ("examples.negative." ++ (if ex.id == "" then "<?>" else ex.id))
    "Negative example should not define output", ?_, rfl⟩
  simp [validate_example, h]

/-- A positive example with truthy `raises` yields an `EXAMPLE_INVALID`
error in its per-example check. -/
theorem validate_example_pos_raises (params : List String) (ex : Example)
    (h : optStrTruthy ex.raises = true) :
    ∃ i ∈ (validate_example params "positive" ex).1, i.code = "EXAMPLE_INVALID" := by
  refine ⟨mk_err "EXAMPLE_INVALID"
    ("examples.positive." ++ (if ex.id == "" then "<?>" else ex.id))
    "Positive example must not set raises", ?_, rfl⟩
  simp [validate_example, h]

/-- Per-example errors of a positive example land in the examples pass. -/
theorem mem_examples_all_pos (params : List String) (spec : Spec) (ex : Example)
    (i : ValidationIssue) (hex : ex ∈ spec.examples.positive)
    (hi : i ∈ (validate_example params "positive" ex).1) :
    i ∈ (validate_examples_all params spec).1 := by
  show i ∈ (spec.examples.positive.map (validate_example params "positive")
    ++ spec.examples.negative.map (validate_example params "negative")).flatMap Prod.fst
  exact List.mem_flatMap.mpr ⟨validate_example params "positive" ex,
    List.mem_append_left _ (List.mem_map.mpr ⟨ex, hex, rfl⟩), hi⟩

/-- Per-example errors of a negative example land in the examples pass. -/
theorem mem_examples_all_neg (params : List String) (spec : Spec) (ex : Example)
    (i : ValidationIssue) (hex : ex ∈ spec.examples.negative)
    (hi : i ∈ (validate_example params "negative" ex).1) :
    i ∈ (validate_examples_all params spec).1 := by
  show i ∈ (spec.examples.positive.map (validate_example params "positive")
    ++ spec.examples.negative.map (validate_example params "negative")).flatMap Prod.fst
  exact List.mem_flatMap.mpr ⟨validate_example params "negative" ex,
    List.mem_append_right _ (List.mem_map.mpr ⟨ex, hex, rfl⟩), hi⟩

/-- Errors of the examples pass land in the aggregated error list of
`SpecValidator.validate`. -/
theorem mem_spec_errors_of_examples (parse : String → Except String PyExpr) (spec : Spec)
    (i : ValidationIssue)
    (h : i ∈ (validate_examples_all (spec.types.parameters.map TypeDescriptor.name) spec).1) :
    i ∈ spec_errors parse spec := by
  show i ∈ (spec_collect parse spec).1
  unfold spec_collect
  dsimp only
  simp only [List.mem_append]
  tauto

/-- C6 counterexample: `specC6`'s positive example has `raises` set to the
empty string — non-null — yet `SpecValidator.validate` succeeds, because
line 206 tests `if ex.raises:` (Python truthiness), which an empty string
fails. -/
theorem C6_counterexample :
    (∃ ex ∈ specC6.examples.positive, ex.raises ≠ none)
    ∧ SpecValidator_validate parseC6 specC6 =
        Except.ok ([], [mk_warn "COVERAGE_INSUFFICIENT" "examples.negative"
          "No negative examples provided"]) := by
  refine ⟨by decide, by rfl⟩

/-- C6 amended: a negative example whose `output` is non-None causes
validation to fail with an `EXAMPLE_INVALID` error, and a positive example
whose `raises` is a non-empty (truthy) string causes validation to fail with
an `EXAMPLE_INVALID` error; a positive example whose `raises` is the empty
string is not flagged. -/
theorem C6_amended_example_polarity (parse : String → Except String PyExpr) (spec : Spec)
    (h : (∃ ex ∈ spec.examples.negative, isNoneV ex.output = false)
       ∨ (∃ ex ∈ spec.examples.positive, optStrTruthy ex.raises = true)) :
    (∃ i ∈ spec_errors parse spec, i.code = "EXAMPLE_INVALID")
    ∧ ∃ m, SpecValidator_validate parse spec = Except.error m := by
  have hmem : ∃ i ∈ spec_errors parse spec, i.code = "EXAMPLE_INVALID" := by
    rcases h with ⟨ex, hex, hne⟩ | ⟨ex, hex, hr⟩
    · obtain ⟨i, hi, hc⟩ := validate_example_neg_output
        (spec.types.parameters.map TypeDescriptor.name) ex hne
      exact ⟨i, mem_spec_errors_of_examples parse spec i
        (mem_examples_all_neg _ spec ex i hex hi), hc⟩
    · obtain ⟨i, hi, hc⟩ := validate_example_pos_raises
        (spec.types.parameters.map TypeDescriptor.name) ex hr
      exact ⟨i, mem_spec_errors_of_examples parse spec i
        (mem_examples_all_pos _ spec ex i hex hi), hc⟩
  refine ⟨hmem, ?_⟩
  obtain ⟨i, hi, _⟩ := hmem
  have hne : spec_errors parse spec ≠ [] := by
    intro hcon
    rw [hcon] at hi
    exact List.not_mem_nil i hi
  exact ⟨_, SpecValidator_validate_error_of_ne parse spec hne⟩

/-- Witness for C6 amended: a negative example with non-null output makes
validation fail. -/
theorem C6_amended_example_polarity_witness :
    (∃ i ∈ spec_errors parseC6 specC6n, i.code = "EXAMPLE_INVALID")
    ∧ ∃ m, SpecValidator_validate parseC6 specC6n = Except.error m :=
  C6_amended_example_polarity parseC6 specC6n (Or.inl (by decide))

/-- The validation tool's result list is exactly the examples list mapped
through `_run_single_test`, index-tagged and in declaration order. -/
theorem execute_impl_results (execRun : String → ExecResult) (pyEval : String → Option PyVal)
    (spec : FunctionSpec) (c : String) :
    (execute_impl execRun pyEval c spec).data.test_results
      = (spec.examples.enum).map (fun ie =>
          run_single_test execRun pyEval c spec.name ("Example_" ++ toString (ie.1 + 1))
            ie.2.inputs ie.2.expected_output) := by
  obtain ⟨nm, pp, exs, ecs⟩ := spec
  rcases exs with _ | ⟨e, es⟩
  · rfl
  · unfold execute_impl
    simp only [List.isEmpty_cons, Bool.false_eq_true, if_false]
    split <;> rfl

/-- Every validation the workflow loop ever records is an output of the
validation step on some candidate code. -/
theorem workflow_validations_from_validate (validateC : String → ValidationResult)
    (refineC : String → ValidationResult → Option Implementation) (maxA : Nat) :
    ∀ (rem : Nat) (code expl : String),
      ∀ v ∈ (workflow_go validateC refineC maxA rem code expl).validations,
        ∃ c, v = validateC c := by
  intro rem
  induction rem with
  | zero =>
      intro code expl v hv
      simp only [workflow_go, List.mem_singleton] at hv
      exact ⟨code, hv⟩
  | succ n ih =>
      intro code expl v hv
      simp only [workflow_go] at hv
      by_cases h1 : (validateC code).is_valid = true
      · rw [if_pos h1] at hv
        simp only [List.mem_singleton] at hv
        exact ⟨code, hv⟩
      · rw [if_neg h1] at hv
        by_cases h2 : 0 < n
        · rw [if_pos h2] at hv
          cases hr : refineC code (validateC code) with
          | none =>
              rw [hr] at hv
              simp only [List.mem_singleton] at hv
              exact ⟨code, hv⟩
          | some refined =>
              rw [hr] at hv
              simp only [List.mem_cons] at hv
              rcases hv with hv | hv
              · exact ⟨code, hv⟩
              · exact ih refined.code refined.explanation v hv
        · rw [if_neg h2] at hv
          simp only [List.mem_singleton] at hv
          exact ⟨code, hv⟩

/-- C7: every invocation of the validation step produces exactly one
`TestResult` per example of `spec.examples`, in declaration order (the result
list is the examples list mapped through `_run_single_test` with index-based
test names), and every validation recorded by a refine-loop run — one per
iteration — is such a full-list validation of some candidate code, never a
subset. -/
theorem C7_full_revalidation (execRun : String → ExecResult) (pyEval : String → Option PyVal)
    (spec : FunctionSpec) (refineC : String → ValidationResult → Option Implementation)
    (maxA rem : Nat) (code expl : String) :
    (∀ c : String,
        (execute_impl execRun pyEval c spec).data.test_results.length = spec.examples.length
      ∧ (execute_impl execRun pyEval c spec).data.test_results
          = (spec.examples.enum).map (fun ie =>
              run_single_test execRun pyEval c spec.name ("Example_" ++ toString (ie.1 + 1))
                ie.2.inputs ie.2.expected_output))
    ∧ (∀ v ∈ (workflow_go (fun c => (execute_impl execRun pyEval c spec).data)
          refineC maxA rem code expl).validations,
        (∃ c, v = (execute_impl execRun pyEval c spec).data)
        ∧ v.test_results.length = spec.examples.length) := by
  have hlen : ∀ c : String,
      (execute_impl execRun pyEval c spec).data.test_results.length = spec.examples.length := by
    intro c
    rw [execute_impl_results execRun pyEval spec c]
    simp [List.enum_length]
  constructor
  · exact fun c => ⟨hlen c, execute_impl_results execRun pyEval spec c⟩
  · intro v hv
    obtain ⟨c, hc⟩ := workflow_validations_from_validate
      (fun c => (execute_impl execRun pyEval c spec).data) refineC maxA rem code expl v hv
    exact ⟨⟨c, hc⟩, by rw [hc]; exact hlen c⟩

/-- Witness for C7 on a concrete one-example run whose trace holds exactly
one validation. -/
theorem C7_full_revalidation_witness :
    (∃ c, (execute_impl wExecFail wEvalNone "bad" wSpec1).data
        = (execute_impl wExecFail wEvalNone c wSpec1).data)
    ∧ (execute_impl wExecFail wEvalNone "bad" wSpec1).data.test_results.length
        = wSpec1.examples.length :=
  (C7_full_revalidation wExecFail wEvalNone wSpec1 (fun _ _ => none) 1 1 "bad" "e").2
    ((execute_impl wExecFail wEvalNone "bad" wSpec1).data)
    (by
      have h : (workflow_go (fun c => (execute_impl wExecFail wEvalNone c wSpec1).data)
          (fun _ _ => none) 1 1 "bad" "e").validations
          = [(execute_impl wExecFail wEvalNone "bad" wSpec1).data] := rfl
      rw [h]
      exact List.mem_singleton_self _)

end CodegenX
